import Mathlib

/-!
Shallow embedding of the `MemStorage` in-memory store of `server/storage.ts`
(repository `lions-5.1`), together with the entity record types of
`shared/schema.ts`, and proofs of the spec's claims about them.

Modelling conventions:
* JavaScript `Map<string, T>` becomes an insertion-ordered association list
  `JsMap T`; `set` replaces in place or appends, `delete` reports presence,
  `values()` lists values in insertion order.
* `Date` values are their millisecond timestamps (`Nat`).
* `randomUUID()` and `new Date()` are effects: every operation that uses them
  takes the generated `id` and the current time `now` as explicit arguments.
* Nullable / optional fields are `Option`; JavaScript `x || null` is
  `orNullStr` on strings (empty string is falsy), `orNullBool` on booleans
  (`false` is falsy), and the identity on `Date` / object-valued fields
  (objects are always truthy).
* A TypeScript `Partial<T>` becomes a structure with every field wrapped in
  one more `Option`: `none` means the key is absent from the partial object,
  `some v` means the key is present with value `v` (itself possibly the null
  sentinel). Object spread `{...old, ...updates}` is `Option.getD` per field.
* The `async` wrappers perform no real suspension (the spec notes the store is
  logically synchronous), so every operation is a pure function from the store
  state (plus `id` / `now` arguments) to its result and the next state.
-/

/-- JavaScript `x || null` on an optional string field (`insertUser.profilePicture
|| null`): `undefined`, `null` and the empty string are all falsy and collapse to
the null sentinel `none`. -/
def orNullStr : Option String → Option String
  | some s => if s = "" then none else some s
  | none => none

/-- JavaScript `x || d` on an optional string field with a string default
(`insertUser.role || "athlete"`): falsy values (absent, null, empty string)
are replaced by the default `d`. -/
def orDefaultStr : Option String → String → String
  | some s, d => if s = "" then d else s
  | none, d => d

/-- JavaScript `x || null` on an optional boolean field (`insertEvent.mandatory
|| null`): `false`, `null` and `undefined` are all falsy, so only `true`
survives; an explicit `false` becomes the null sentinel `none`. -/
def orNullBool : Option Bool → Option Bool
  | some true => some true
  | _ => none

/-- JavaScript `Map<string, T>`, modelled as an insertion-ordered association
list with (in well-formed states) pairwise distinct keys. -/
abbrev JsMap (α : Type) : Type := List (String × α)

/-- Model of `Map.prototype.get`: the value stored under `k`, or `none`. -/
def mapGet {α : Type} : JsMap α → String → Option α
  | [], _ => none
  | p :: rest, k => if p.1 = k then some p.2 else mapGet rest k

/-- Model of `Map.prototype.set`: replace the entry for `k` in place if present
(preserving insertion order), otherwise append a new entry. -/
def mapSet {α : Type} : JsMap α → String → α → JsMap α
  | [], k, v => [(k, v)]
  | p :: rest, k, v => if p.1 = k then (k, v) :: rest else p :: mapSet rest k v

/-- Model of `Map.prototype.delete`: remove the entry for `k` and report whether it was
present. -/
def mapDelete {α : Type} : JsMap α → String → Bool × JsMap α
  | [], _ => (false, [])
  | p :: rest, k =>
    if p.1 = k then (true, rest)
    else
      let r := mapDelete rest k
      (r.1, p :: r.2)

/-- Model of `Array.from(map.values())`: the stored values in insertion order. -/
def mapValues {α : Type} (m : JsMap α) : List α := m.map (fun p => p.2)

theorem mapGet_mapSet_self {α : Type} (m : JsMap α) (k : String) (v : α) :
    mapGet (mapSet m k v) k = some v := by
  induction m with
  | nil => simp [mapGet, mapSet]
  | cons p rest ih =>
    by_cases h : p.1 = k
    · simp [mapGet, mapSet, h]
    · simp [mapGet, mapSet, h, ih]

theorem mapGet_mapSet_ne {α : Type} (m : JsMap α) (k j : String) (v : α)
    (h : j ≠ k) : mapGet (mapSet m k v) j = mapGet m j := by
  have hkj : ¬ k = j := fun e => h e.symm
  induction m with
  | nil => simp [mapGet, mapSet, hkj]
  | cons p rest ih =>
    by_cases hp : p.1 = k
    · have hpj : ¬ p.1 = j := by rw [hp]; exact hkj
      simp [mapGet, mapSet, hp, hkj, hpj]
    · simp [mapGet, mapSet, hp, ih]

theorem mapDelete_of_get_none {α : Type} (m : JsMap α) (k : String)
    (h : mapGet m k = none) : mapDelete m k = (false, m) := by
  induction m with
  | nil => simp [mapDelete]
  | cons p rest ih =>
    by_cases hp : p.1 = k
    · simp [mapGet, hp] at h
    · simp [mapGet, hp] at h
      simp [mapDelete, hp, ih h]

theorem mapDelete_fst {α : Type} (m : JsMap α) (k : String) :
    (mapDelete m k).1 = (mapGet m k).isSome := by
  induction m with
  | nil => simp [mapDelete, mapGet]
  | cons p rest ih =>
    by_cases hp : p.1 = k
    · simp [mapDelete, mapGet, hp]
    · simp [mapDelete, mapGet, hp, ih]

theorem mapGet_eq_none_of_not_mem_keys {α : Type} (m : JsMap α) (k : String)
    (h : k ∉ m.map (fun p => p.1)) : mapGet m k = none := by
  induction m with
  | nil => rfl
  | cons p rest ih =>
    rw [List.map_cons] at h
    have h1 : ¬ p.1 = k := by
      intro e
      exact h (e ▸ List.mem_cons_self _ _)
    have h2 : k ∉ rest.map (fun p => p.1) := fun hm => h (List.mem_cons_of_mem _ hm)
    simp [mapGet, h1, ih h2]

theorem mapGet_mapDelete_self {α : Type} (m : JsMap α) (k : String)
    (h : (m.map (fun p => p.1)).Nodup) : mapGet (mapDelete m k).2 k = none := by
  induction m with
  | nil => simp [mapDelete, mapGet]
  | cons p rest ih =>
    rw [List.map_cons, List.nodup_cons] at h
    by_cases hp : p.1 = k
    · have : mapGet rest k = none := by
        rw [← hp]
        exact mapGet_eq_none_of_not_mem_keys rest p.1 h.1
      simpa [mapDelete, hp] using this
    · simp [mapDelete, mapGet, hp, ih h.2]

theorem mapDelete_keys_sublist {α : Type} (m : JsMap α) (k : String) :
    ((mapDelete m k).2.map (fun p => p.1)).Sublist (m.map (fun p => p.1)) := by
  induction m with
  | nil => simp [mapDelete]
  | cons p rest ih =>
    by_cases hp : p.1 = k
    · simp only [mapDelete, hp, if_pos rfl]
      exact (List.Sublist.refl _).cons _
    · simp only [mapDelete, hp, if_neg hp, List.map_cons]
      exact ih.cons₂ p.1

theorem mapDelete_keys_nodup {α : Type} (m : JsMap α) (k : String)
    (h : (m.map (fun p => p.1)).Nodup) :
    ((mapDelete m k).2.map (fun p => p.1)).Nodup :=
  (mapDelete_keys_sublist m k).nodup h

/-! ## Entity record types (from `shared/schema.ts` select types) -/

/-- Row type of the `users` table. -/
structure User where
  id : String
  username : String
  email : String
  password : String
  role : String
  fullName : String
  profilePicture : Option String
  position : Option String
  createdAt : Option Nat
  deriving DecidableEq, Repr

/-- Row type of the `athletes` table. -/
structure Athlete where
  id : String
  userId : String
  height : Option String
  weight : Option String
  sleepHours : Option String
  overallPerformance : Option String
  lastTraining : Option Nat
  deriving DecidableEq, Repr

/-- Shape of the sparse `metrics` JSON column of `exercises`. Numeric JSON
fields are modelled as `Nat`; no claim depends on their arithmetic. -/
structure ExerciseMetrics where
  repetitions : Option Nat := none
  duration : Option Nat := none
  distance : Option Nat := none
  accuracy : Option Nat := none
  difficulty : Option String := none
  deriving DecidableEq, Repr

/-- Row type of the `exercises` table. -/
structure Exercise where
  id : String
  name : String
  description : Option String
  category : String
  videoUrl : Option String
  metrics : Option ExerciseMetrics
  createdBy : String
  deriving DecidableEq, Repr

/-- Shape of the `results` JSON column of `training_sessions`. -/
structure SessionResults where
  repetitions : Option Nat := none
  duration : Option Nat := none
  distance : Option Nat := none
  accuracy : Option Nat := none
  completed : Bool
  deriving DecidableEq, Repr

/-- Row type of the `training_sessions` table. -/
structure TrainingSession where
  id : String
  athleteId : String
  exerciseId : String
  results : Option SessionResults
  completedAt : Option Nat
  deriving DecidableEq, Repr

/-- Row type of the `events` table. -/
structure Event where
  id : String
  title : String
  description : Option String
  eventType : String
  startDate : Nat
  endDate : Option Nat
  mandatory : Option Bool
  createdBy : String
  deriving DecidableEq, Repr

/-- Row type of the `gallery` table. -/
structure GalleryItem where
  id : String
  title : String
  description : Option String
  mediaType : String
  url : String
  album : Option String
  uploadedBy : String
  uploadedAt : Option Nat
  deriving DecidableEq, Repr

/-- Shape of the sparse `achievements` JSON column of `best_of_week`. -/
structure Achievements where
  shooting : Option String := none
  rebounds : Option String := none
  assists : Option String := none
  description : Option String := none
  deriving DecidableEq, Repr

/-- Row type of the `best_of_week` table. -/
structure BestOfWeek where
  id : String
  athleteId : String
  weekStart : Nat
  achievements : Option Achievements
  setBy : String
  deriving DecidableEq, Repr

/-- Row type of the `live_streams` table. -/
structure LiveStream where
  id : String
  title : String
  description : Option String
  youtubeUrl : String
  isActive : Option Bool
  scheduledFor : Option Nat
  category : Option String
  createdBy : String
  deriving DecidableEq, Repr

/-! ## Insert types (the `createInsertSchema(...).omit(...)` input types).
Fields that are nullable or carry a schema-level default are optional in the
insert type; `none` stands for both an absent key and an explicit `null`,
which the store's `x || null` / `x || default` coercions treat identically. -/

/-- Input of `createUser` (`InsertUser`, omits `id` and `createdAt`). -/
structure InsertUser where
  username : String
  email : String
  password : String
  role : Option String := none
  fullName : String
  profilePicture : Option String := none
  position : Option String := none
  deriving DecidableEq, Repr

/-- Input of `createAthlete` (`InsertAthlete`, omits `id`). -/
structure InsertAthlete where
  userId : String
  height : Option String := none
  weight : Option String := none
  sleepHours : Option String := none
  overallPerformance : Option String := none
  lastTraining : Option Nat := none
  deriving DecidableEq, Repr

/-- Input of `createExercise` (`InsertExercise`, omits `id`). -/
structure InsertExercise where
  name : String
  description : Option String := none
  category : String
  videoUrl : Option String := none
  metrics : Option ExerciseMetrics := none
  createdBy : String
  deriving DecidableEq, Repr

/-- Input of `createTrainingSession` (`InsertTrainingSession`, omits `id` and
`completedAt`). -/
structure InsertTrainingSession where
  athleteId : String
  exerciseId : String
  results : Option SessionResults := none
  deriving DecidableEq, Repr

/-- Input of `createEvent` (`InsertEvent`, omits `id`). -/
structure InsertEvent where
  title : String
  description : Option String := none
  eventType : String
  startDate : Nat
  endDate : Option Nat := none
  mandatory : Option Bool := none
  createdBy : String
  deriving DecidableEq, Repr

/-- Input of `createGalleryItem` (`InsertGalleryItem`, omits `id` and
`uploadedAt`). -/
structure InsertGalleryItem where
  title : String
  description : Option String := none
  mediaType : String
  url : String
  album : Option String := none
  uploadedBy : String
  deriving DecidableEq, Repr

/-- Input of `setBestOfWeek` (`InsertBestOfWeek`, omits `id`). -/
structure InsertBestOfWeek where
  athleteId : String
  weekStart : Nat
  achievements : Option Achievements := none
  setBy : String
  deriving DecidableEq, Repr

/-- Input of `createLiveStream` (`InsertLiveStream`, omits `id`). -/
structure InsertLiveStream where
  title : String
  description : Option String := none
  youtubeUrl : String
  isActive : Option Bool := none
  scheduledFor : Option Nat := none
  category : Option String := none
  createdBy : String
  deriving DecidableEq, Repr

/-! ## Partial update types (TypeScript `Partial<T>`): every field may be
absent (`none`) or present (`some v`, with `v` the new stored value, possibly
the null sentinel for nullable fields). -/

/-- Model of `Partial<User>` as passed to `updateUser`. -/
structure UserUpdates where
  id : Option String := none
  username : Option String := none
  email : Option String := none
  password : Option String := none
  role : Option String := none
  fullName : Option String := none
  profilePicture : Option (Option String) := none
  position : Option (Option String) := none
  createdAt : Option (Option Nat) := none
  deriving DecidableEq, Repr

/-- Model of `Partial<Athlete>` as passed to `updateAthlete`. -/
structure AthleteUpdates where
  id : Option String := none
  userId : Option String := none
  height : Option (Option String) := none
  weight : Option (Option String) := none
  sleepHours : Option (Option String) := none
  overallPerformance : Option (Option String) := none
  lastTraining : Option (Option Nat) := none
  deriving DecidableEq, Repr

/-- Model of `Partial<Exercise>` as passed to `updateExercise`. -/
structure ExerciseUpdates where
  id : Option String := none
  name : Option String := none
  description : Option (Option String) := none
  category : Option String := none
  videoUrl : Option (Option String) := none
  metrics : Option (Option ExerciseMetrics) := none
  createdBy : Option String := none
  deriving DecidableEq, Repr

/-- Model of `Partial<TrainingSession>` as passed to `updateTrainingSession`. -/
structure TrainingSessionUpdates where
  id : Option String := none
  athleteId : Option String := none
  exerciseId : Option String := none
  results : Option (Option SessionResults) := none
  completedAt : Option (Option Nat) := none
  deriving DecidableEq, Repr

/-- Model of `Partial<Event>` as passed to `updateEvent`. -/
structure EventUpdates where
  id : Option String := none
  title : Option String := none
  description : Option (Option String) := none
  eventType : Option String := none
  startDate : Option Nat := none
  endDate : Option (Option Nat) := none
  mandatory : Option (Option Bool) := none
  createdBy : Option String := none
  deriving DecidableEq, Repr

/-- Model of `Partial<LiveStream>` as passed to `updateLiveStream`. -/
structure LiveStreamUpdates where
  id : Option String := none
  title : Option String := none
  description : Option (Option String) := none
  youtubeUrl : Option String := none
  isActive : Option (Option Bool) := none
  scheduledFor : Option (Option Nat) := none
  category : Option (Option String) := none
  createdBy : Option String := none
  deriving DecidableEq, Repr

/-! ## The in-memory store state -/

/-- State of `MemStorage`: one `Map` per entity kind, keyed by generated id.
The constructor-time fixture seeding (`initializeDefaultData`) only populates
initial entries; every claim quantifies over arbitrary store states, so it is
not re-modelled separately. -/
structure MemStorage where
  users : JsMap User := []
  athletes : JsMap Athlete := []
  exercises : JsMap Exercise := []
  trainingSessions : JsMap TrainingSession := []
  events : JsMap Event := []
  galleryItems : JsMap GalleryItem := []
  bestOfWeeks : JsMap BestOfWeek := []
  liveStreams : JsMap LiveStream := []
  deriving DecidableEq, Repr

/-- Well-formedness: every per-entity map has pairwise distinct keys, as a
JavaScript `Map` guarantees. Preserved by every operation. -/
def MemStorage.WF (st : MemStorage) : Prop :=
  (st.users.map (fun p => p.1)).Nodup ∧
  (st.athletes.map (fun p => p.1)).Nodup ∧
  (st.exercises.map (fun p => p.1)).Nodup ∧
  (st.trainingSessions.map (fun p => p.1)).Nodup ∧
  (st.events.map (fun p => p.1)).Nodup ∧
  (st.galleryItems.map (fun p => p.1)).Nodup ∧
  (st.bestOfWeeks.map (fun p => p.1)).Nodup ∧
  (st.liveStreams.map (fun p => p.1)).Nodup

instance (st : MemStorage) : Decidable st.WF := by
  unfold MemStorage.WF
  infer_instance

/-! ## User methods -/

/-- Model of `MemStorage.getUser`. -/
def getUser (st : MemStorage) (id : String) : Option User :=
  mapGet st.users id

/-- Model of `MemStorage.getUserByUsername`. -/
def getUserByUsername (st : MemStorage) (username : String) : Option User :=
  (mapValues st.users).find? (fun user => user.username == username)

/-- Model of `MemStorage.getUserByEmail`. -/
def getUserByEmail (st : MemStorage) (email : String) : Option User :=
  (mapValues st.users).find? (fun user => user.email == email)

/-- Model of `MemStorage.createUser`; `id` is the `randomUUID()` result and `now` the
`new Date()` timestamp. -/
def createUser (st : MemStorage) (id : String) (now : Nat)
    (insertUser : InsertUser) : User × MemStorage :=
  let user : User := {
    id := id
    username := insertUser.username
    email := insertUser.email
    password := insertUser.password
    role := orDefaultStr insertUser.role "athlete"
    fullName := insertUser.fullName
    profilePicture := orNullStr insertUser.profilePicture
    position := orNullStr insertUser.position
    createdAt := some now
  }
  (user, { st with users := mapSet st.users id user })

/-- Model of `MemStorage.updateUser`: spread-merge `{...user, ...updates}`. -/
def updateUser (st : MemStorage) (id : String) (updates : UserUpdates) :
    Option User × MemStorage :=
  match mapGet st.users id with
  | none => (none, st)
  | some user =>
    let updatedUser : User := {
      id := updates.id.getD user.id
      username := updates.username.getD user.username
      email := updates.email.getD user.email
      password := updates.password.getD user.password
      role := updates.role.getD user.role
      fullName := updates.fullName.getD user.fullName
      profilePicture := updates.profilePicture.getD user.profilePicture
      position := updates.position.getD user.position
      createdAt := updates.createdAt.getD user.createdAt
    }
    (some updatedUser, { st with users := mapSet st.users id updatedUser })

/-! ## Athlete methods -/

/-- Model of `MemStorage.getAthlete`. -/
def getAthlete (st : MemStorage) (id : String) : Option Athlete :=
  mapGet st.athletes id

/-- Model of `MemStorage.getAthleteByUserId`. -/
def getAthleteByUserId (st : MemStorage) (userId : String) : Option Athlete :=
  (mapValues st.athletes).find? (fun athlete => athlete.userId == userId)

/-- Model of `MemStorage.getAllAthletes`. -/
def getAllAthletes (st : MemStorage) : List Athlete :=
  mapValues st.athletes

/-- Model of `MemStorage.createAthlete`. `lastTraining` is a `Date`, which is always
truthy, so its `|| null` is the identity on the optional value. -/
def createAthlete (st : MemStorage) (id : String)
    (insertAthlete : InsertAthlete) : Athlete × MemStorage :=
  let athlete : Athlete := {
    id := id
    userId := insertAthlete.userId
    height := orNullStr insertAthlete.height
    weight := orNullStr insertAthlete.weight
    sleepHours := orNullStr insertAthlete.sleepHours
    overallPerformance := orNullStr insertAthlete.overallPerformance
    lastTraining := insertAthlete.lastTraining
  }
  (athlete, { st with athletes := mapSet st.athletes id athlete })

/-- Model of `MemStorage.updateAthlete`: spread-merge `{...athlete, ...updates}`. -/
def updateAthlete (st : MemStorage) (id : String) (updates : AthleteUpdates) :
    Option Athlete × MemStorage :=
  match mapGet st.athletes id with
  | none => (none, st)
  | some athlete =>
    let updatedAthlete : Athlete := {
      id := updates.id.getD athlete.id
      userId := updates.userId.getD athlete.userId
      height := updates.height.getD athlete.height
      weight := updates.weight.getD athlete.weight
      sleepHours := updates.sleepHours.getD athlete.sleepHours
      overallPerformance := updates.overallPerformance.getD athlete.overallPerformance
      lastTraining := updates.lastTraining.getD athlete.lastTraining
    }
    (some updatedAthlete, { st with athletes := mapSet st.athletes id updatedAthlete })

/-- Model of `MemStorage.deleteAthlete`. -/
def deleteAthlete (st : MemStorage) (id : String) : Bool × MemStorage :=
  let r := mapDelete st.athletes id
  (r.1, { st with athletes := r.2 })

/-! ## Exercise methods -/

/-- Model of `MemStorage.getExercise`. -/
def getExercise (st : MemStorage) (id : String) : Option Exercise :=
  mapGet st.exercises id

/-- Model of `MemStorage.getAllExercises`. -/
def getAllExercises (st : MemStorage) : List Exercise :=
  mapValues st.exercises

/-- Model of `MemStorage.getExercisesByCategory`. -/
def getExercisesByCategory (st : MemStorage) (category : String) : List Exercise :=
  (mapValues st.exercises).filter (fun exercise => exercise.category == category)

/-- Model of `MemStorage.createExercise`. `metrics` is an object, always truthy, so its
`|| null` is the identity on the optional value. -/
def createExercise (st : MemStorage) (id : String)
    (insertExercise : InsertExercise) : Exercise × MemStorage :=
  let exercise : Exercise := {
    id := id
    name := insertExercise.name
    description := orNullStr insertExercise.description
    category := insertExercise.category
    videoUrl := orNullStr insertExercise.videoUrl
    metrics := insertExercise.metrics
    createdBy := insertExercise.createdBy
  }
  (exercise, { st with exercises := mapSet st.exercises id exercise })

/-- Model of `MemStorage.updateExercise`: spread-merge `{...exercise, ...updates}`. -/
def updateExercise (st : MemStorage) (id : String) (updates : ExerciseUpdates) :
    Option Exercise × MemStorage :=
  match mapGet st.exercises id with
  | none => (none, st)
  | some exercise =>
    let updatedExercise : Exercise := {
      id := updates.id.getD exercise.id
      name := updates.name.getD exercise.name
      description := updates.description.getD exercise.description
      category := updates.category.getD exercise.category
      videoUrl := updates.videoUrl.getD exercise.videoUrl
      metrics := updates.metrics.getD exercise.metrics
      createdBy := updates.createdBy.getD exercise.createdBy
    }
    (some updatedExercise, { st with exercises := mapSet st.exercises id updatedExercise })

/-- Model of `MemStorage.deleteExercise`. -/
def deleteExercise (st : MemStorage) (id : String) : Bool × MemStorage :=
  let r := mapDelete st.exercises id
  (r.1, { st with exercises := r.2 })

/-! ## Training session methods -/

/-- Model of `MemStorage.getTrainingSession`. -/
def getTrainingSession (st : MemStorage) (id : String) : Option TrainingSession :=
  mapGet st.trainingSessions id

/-- Model of `MemStorage.getTrainingSessionsByAthlete`. -/
def getTrainingSessionsByAthlete (st : MemStorage) (athleteId : String) :
    List TrainingSession :=
  (mapValues st.trainingSessions).filter (fun session => session.athleteId == athleteId)

/-- Model of `MemStorage.createTrainingSession`. -/
def createTrainingSession (st : MemStorage) (id : String) (now : Nat)
    (insertSession : InsertTrainingSession) : TrainingSession × MemStorage :=
  let session : TrainingSession := {
    id := id
    athleteId := insertSession.athleteId
    exerciseId := insertSession.exerciseId
    results := insertSession.results
    completedAt := some now
  }
  (session, { st with trainingSessions := mapSet st.trainingSessions id session })

/-- Model of `MemStorage.updateTrainingSession`: spread-merge `{...session, ...updates}`. -/
def updateTrainingSession (st : MemStorage) (id : String)
    (updates : TrainingSessionUpdates) : Option TrainingSession × MemStorage :=
  match mapGet st.trainingSessions id with
  | none => (none, st)
  | some session =>
    let updatedSession : TrainingSession := {
      id := updates.id.getD session.id
      athleteId := updates.athleteId.getD session.athleteId
      exerciseId := updates.exerciseId.getD session.exerciseId
      results := updates.results.getD session.results
      completedAt := updates.completedAt.getD session.completedAt
    }
    (some updatedSession,
      { st with trainingSessions := mapSet st.trainingSessions id updatedSession })

/-! ## Event methods -/

/-- Model of `MemStorage.getEvent`. -/
def getEvent (st : MemStorage) (id : String) : Option Event :=
  mapGet st.events id

/-- Model of `MemStorage.getAllEvents`. -/
def getAllEvents (st : MemStorage) : List Event :=
  mapValues st.events

/-- Model of `MemStorage.getUpcomingEvents`; `now` is the `new Date()` taken at call
time, and the filter keeps events with `event.startDate > now` (strict). -/
def getUpcomingEvents (st : MemStorage) (now : Nat) : List Event :=
  (mapValues st.events).filter (fun event => now < event.startDate)

/-- Model of `MemStorage.createEvent`. Note `mandatory: insertEvent.mandatory || null`
(an explicit `false` is falsy and becomes `null`), while `endDate` is a `Date`
(always truthy), so its `|| null` is the identity. -/
def createEvent (st : MemStorage) (id : String) (insertEvent : InsertEvent) :
    Event × MemStorage :=
  let event : Event := {
    id := id
    title := insertEvent.title
    description := orNullStr insertEvent.description
    eventType := insertEvent.eventType
    startDate := insertEvent.startDate
    endDate := insertEvent.endDate
    mandatory := orNullBool insertEvent.mandatory
    createdBy := insertEvent.createdBy
  }
  (event, { st with events := mapSet st.events id event })

/-- Model of `MemStorage.updateEvent`: spread-merge `{...event, ...updates}`. -/
def updateEvent (st : MemStorage) (id : String) (updates : EventUpdates) :
    Option Event × MemStorage :=
  match mapGet st.events id with
  | none => (none, st)
  | some event =>
    let updatedEvent : Event := {
      id := updates.id.getD event.id
      title := updates.title.getD event.title
      description := updates.description.getD event.description
      eventType := updates.eventType.getD event.eventType
      startDate := updates.startDate.getD event.startDate
      endDate := updates.endDate.getD event.endDate
      mandatory := updates.mandatory.getD event.mandatory
      createdBy := updates.createdBy.getD event.createdBy
    }
    (some updatedEvent, { st with events := mapSet st.events id updatedEvent })

/-- Model of `MemStorage.deleteEvent`. -/
def deleteEvent (st : MemStorage) (id : String) : Bool × MemStorage :=
  let r := mapDelete st.events id
  (r.1, { st with events := r.2 })

/-! ## Gallery methods -/

/-- Model of `MemStorage.getGalleryItem`. -/
def getGalleryItem (st : MemStorage) (id : String) : Option GalleryItem :=
  mapGet st.galleryItems id

/-- Model of `MemStorage.getAllGalleryItems`. -/
def getAllGalleryItems (st : MemStorage) : List GalleryItem :=
  mapValues st.galleryItems

/-- Model of `MemStorage.getGalleryItemsByAlbum`: keeps items whose (nullable) `album`
field strictly equals the requested album string. -/
def getGalleryItemsByAlbum (st : MemStorage) (album : String) : List GalleryItem :=
  (mapValues st.galleryItems).filter (fun item => item.album == some album)

/-- Model of `MemStorage.createGalleryItem`. Note `album: insertItem.album || null`:
an omitted album is stored as the null sentinel, not as the schema-level
default string. -/
def createGalleryItem (st : MemStorage) (id : String) (now : Nat)
    (insertItem : InsertGalleryItem) : GalleryItem × MemStorage :=
  let item : GalleryItem := {
    id := id
    title := insertItem.title
    description := orNullStr insertItem.description
    mediaType := insertItem.mediaType
    url := insertItem.url
    album := orNullStr insertItem.album
    uploadedBy := insertItem.uploadedBy
    uploadedAt := some now
  }
  (item, { st with galleryItems := mapSet st.galleryItems id item })

/-- Model of `MemStorage.deleteGalleryItem`. -/
def deleteGalleryItem (st : MemStorage) (id : String) : Bool × MemStorage :=
  let r := mapDelete st.galleryItems id
  (r.1, { st with galleryItems := r.2 })

/-! ## Best-of-week methods -/

/-- Milliseconds per day. -/
def msPerDay : Nat := 86400000

/-- Model of `MemStorage.getStartOfWeek` on millisecond timestamps, under a UTC
calendar: `getDay()` is the weekday (0 = Sunday; the Unix epoch day was a
Thursday, hence the offset 4), `setDate(getDate() - day)` moves back `day`
days, and `setHours(0,0,0,0)` zeroes the time of day, so the result is the
midnight starting the most recent Sunday. -/
def getStartOfWeek (ms : Nat) : Nat :=
  let epochDay := ms / msPerDay
  let day := (epochDay + 4) % 7
  (epochDay - day) * msPerDay

/-- Model of `MemStorage.getCurrentBestOfWeek`: finds the first stored record whose
`weekStart` equals, to the millisecond, the start-of-week boundary computed
from the current time `now`. -/
def getCurrentBestOfWeek (st : MemStorage) (now : Nat) : Option BestOfWeek :=
  let currentWeekStart := getStartOfWeek now
  (mapValues st.bestOfWeeks).find? (fun best => best.weekStart == currentWeekStart)

/-- Model of `MemStorage.setBestOfWeek`. `achievements` is an object, always truthy, so
its `|| null` is the identity on the optional value. -/
def setBestOfWeek (st : MemStorage) (id : String)
    (insertBestOfWeek : InsertBestOfWeek) : BestOfWeek × MemStorage :=
  let bestOfWeek : BestOfWeek := {
    id := id
    athleteId := insertBestOfWeek.athleteId
    weekStart := insertBestOfWeek.weekStart
    achievements := insertBestOfWeek.achievements
    setBy := insertBestOfWeek.setBy
  }
  (bestOfWeek, { st with bestOfWeeks := mapSet st.bestOfWeeks id bestOfWeek })

/-! ## Live stream methods -/

/-- Model of `MemStorage.getLiveStream`. -/
def getLiveStream (st : MemStorage) (id : String) : Option LiveStream :=
  mapGet st.liveStreams id

/-- Model of `MemStorage.getAllLiveStreams`. -/
def getAllLiveStreams (st : MemStorage) : List LiveStream :=
  mapValues st.liveStreams

/-- Model of `MemStorage.getActiveLiveStreams`: keeps streams whose nullable `isActive`
flag is truthy, i.e. strictly `true`. -/
def getActiveLiveStreams (st : MemStorage) : List LiveStream :=
  (mapValues st.liveStreams).filter (fun stream => stream.isActive == some true)

/-- Model of `MemStorage.createLiveStream`. `scheduledFor` is a `Date` (always truthy),
so its `|| null` is the identity; `isActive` and `category` go through the
falsy coercions. -/
def createLiveStream (st : MemStorage) (id : String)
    (insertStream : InsertLiveStream) : LiveStream × MemStorage :=
  let stream : LiveStream := {
    id := id
    title := insertStream.title
    description := orNullStr insertStream.description
    youtubeUrl := insertStream.youtubeUrl
    isActive := orNullBool insertStream.isActive
    scheduledFor := insertStream.scheduledFor
    category := orNullStr insertStream.category
    createdBy := insertStream.createdBy
  }
  (stream, { st with liveStreams := mapSet st.liveStreams id stream })

/-- Model of `MemStorage.updateLiveStream`: spread-merge `{...stream, ...updates}`. -/
def updateLiveStream (st : MemStorage) (id : String) (updates : LiveStreamUpdates) :
    Option LiveStream × MemStorage :=
  match mapGet st.liveStreams id with
  | none => (none, st)
  | some stream =>
    let updatedStream : LiveStream := {
      id := updates.id.getD stream.id
      title := updates.title.getD stream.title
      description := updates.description.getD stream.description
      youtubeUrl := updates.youtubeUrl.getD stream.youtubeUrl
      isActive := updates.isActive.getD stream.isActive
      scheduledFor := updates.scheduledFor.getD stream.scheduledFor
      category := updates.category.getD stream.category
      createdBy := updates.createdBy.getD stream.createdBy
    }
    (some updatedStream, { st with liveStreams := mapSet st.liveStreams id updatedStream })

/-- Model of `MemStorage.deleteLiveStream`. -/
def deleteLiveStream (st : MemStorage) (id : String) : Bool × MemStorage :=
  let r := mapDelete st.liveStreams id
  (r.1, { st with liveStreams := r.2 })

/-! ## Concrete sample data, used by witnesses and counterexamples -/

/-- Store state with every map empty. -/
def emptyStore : MemStorage := {}

/-- Concrete sample user record. -/
def sampleUser : User :=
  { id := "u1", username := "admin", email := "admin@lions.com",
    password := "admin123", role := "admin", fullName := "Administrador Lions",
    profilePicture := none, position := none, createdAt := some 1000 }

/-- Concrete sample athlete record. -/
def sampleAthlete : Athlete :=
  { id := "a1", userId := "u1", height := some "1.85m", weight := some "78kg",
    sleepHours := some "7.5", overallPerformance := some "85.50",
    lastTraining := some 2000 }

/-- Concrete sample exercise record. -/
def sampleExercise : Exercise :=
  { id := "x1", name := "Free throws", description := none,
    category := "basketball", videoUrl := none, metrics := none,
    createdBy := "u1" }

/-- Concrete sample training session record. -/
def sampleSession : TrainingSession :=
  { id := "t1", athleteId := "a1", exerciseId := "x1", results := none,
    completedAt := some 3000 }

/-- Concrete sample event record. -/
def sampleEvent : Event :=
  { id := "e1", title := "Game day", description := none, eventType := "game",
    startDate := 5000, endDate := none, mandatory := none, createdBy := "u1" }

/-- Concrete sample gallery record. -/
def sampleGalleryItem : GalleryItem :=
  { id := "g1", title := "Team photo", description := none,
    mediaType := "image", url := "http://example.com/a.jpg",
    album := some "general", uploadedBy := "u1", uploadedAt := some 4000 }

/-- Concrete sample best-of-week record. -/
def sampleBestOfWeek : BestOfWeek :=
  { id := "b1", athleteId := "a1", weekStart := 0, achievements := none,
    setBy := "u1" }

/-- Concrete sample live stream record. -/
def sampleStream : LiveStream :=
  { id := "s1", title := "NBB finals", description := none,
    youtubeUrl := "http://youtube.com/w", isActive := some true,
    scheduledFor := none, category := some "nbb", createdBy := "u1" }

/-- Store state holding exactly one record of each entity kind. -/
def sampleStore : MemStorage :=
  { users := [("u1", sampleUser)], athletes := [("a1", sampleAthlete)],
    exercises := [("x1", sampleExercise)],
    trainingSessions := [("t1", sampleSession)], events := [("e1", sampleEvent)],
    galleryItems := [("g1", sampleGalleryItem)],
    bestOfWeeks := [("b1", sampleBestOfWeek)],
    liveStreams := [("s1", sampleStream)] }

/-! ## Claim theorems -/

/-- C1: for every entity kind and every create input, the create operation
assigns the generated id (and the generated timestamp where the entity has
one), and the point lookup with the returned record's id returns a record
equal to the record create returned. -/
theorem claim1_create_then_get (st : MemStorage) (id : String) (now : Nat)
    (iu : InsertUser) (ia : InsertAthlete) (ix : InsertExercise)
    (it : InsertTrainingSession) (ie : InsertEvent) (ig : InsertGalleryItem)
    (ib : InsertBestOfWeek) (il : InsertLiveStream) :
    (createUser st id now iu).1.id = id ∧
    (createUser st id now iu).1.createdAt = some now ∧
    getUser (createUser st id now iu).2 (createUser st id now iu).1.id
      = some (createUser st id now iu).1 ∧
    (createAthlete st id ia).1.id = id ∧
    getAthlete (createAthlete st id ia).2 (createAthlete st id ia).1.id
      = some (createAthlete st id ia).1 ∧
    (createExercise st id ix).1.id = id ∧
    getExercise (createExercise st id ix).2 (createExercise st id ix).1.id
      = some (createExercise st id ix).1 ∧
    (createTrainingSession st id now it).1.id = id ∧
    (createTrainingSession st id now it).1.completedAt = some now ∧
    getTrainingSession (createTrainingSession st id now it).2
      (createTrainingSession st id now it).1.id
      = some (createTrainingSession st id now it).1 ∧
    (createEvent st id ie).1.id = id ∧
    getEvent (createEvent st id ie).2 (createEvent st id ie).1.id
      = some (createEvent st id ie).1 ∧
    (createGalleryItem st id now ig).1.id = id ∧
    (createGalleryItem st id now ig).1.uploadedAt = some now ∧
    getGalleryItem (createGalleryItem st id now ig).2
      (createGalleryItem st id now ig).1.id
      = some (createGalleryItem st id now ig).1 ∧
    (setBestOfWeek st id ib).1.id = id ∧
    mapGet (setBestOfWeek st id ib).2.bestOfWeeks (setBestOfWeek st id ib).1.id
      = some (setBestOfWeek st id ib).1 ∧
    (createLiveStream st id il).1.id = id ∧
    getLiveStream (createLiveStream st id il).2 (createLiveStream st id il).1.id
      = some (createLiveStream st id il).1 :=
  ⟨rfl, rfl, mapGet_mapSet_self _ _ _,
   rfl, mapGet_mapSet_self _ _ _,
   rfl, mapGet_mapSet_self _ _ _,
   rfl, rfl, mapGet_mapSet_self _ _ _,
   rfl, mapGet_mapSet_self _ _ _,
   rfl, rfl, mapGet_mapSet_self _ _ _,
   rfl, mapGet_mapSet_self _ _ _,
   rfl, mapGet_mapSet_self _ _ _⟩

/-- C3: for an id absent from the respective map (in particular any id never
returned by a prior create), the point lookup returns `none`, update returns
`none` and leaves the whole store state unchanged, and delete returns `false`
and leaves the whole store state unchanged, for every entity kind and each of
its available operations. All operations are total Lean functions, so none of
them can throw. -/
theorem claim3_missing_id_semantics (st : MemStorage)
    (idU idA idX idT idE idG idS : String)
    (pu : UserUpdates) (pa : AthleteUpdates) (px : ExerciseUpdates)
    (pt : TrainingSessionUpdates) (pe : EventUpdates) (ps : LiveStreamUpdates)
    (hu : mapGet st.users idU = none)
    (ha : mapGet st.athletes idA = none)
    (hx : mapGet st.exercises idX = none)
    (ht : mapGet st.trainingSessions idT = none)
    (he : mapGet st.events idE = none)
    (hg : mapGet st.galleryItems idG = none)
    (hs : mapGet st.liveStreams idS = none) :
    getUser st idU = none ∧ updateUser st idU pu = (none, st) ∧
    getAthlete st idA = none ∧ updateAthlete st idA pa = (none, st) ∧
    deleteAthlete st idA = (false, st) ∧
    getExercise st idX = none ∧ updateExercise st idX px = (none, st) ∧
    deleteExercise st idX = (false, st) ∧
    getTrainingSession st idT = none ∧
    updateTrainingSession st idT pt = (none, st) ∧
    getEvent st idE = none ∧ updateEvent st idE pe = (none, st) ∧
    deleteEvent st idE = (false, st) ∧
    getGalleryItem st idG = none ∧ deleteGalleryItem st idG = (false, st) ∧
    getLiveStream st idS = none ∧ updateLiveStream st idS ps = (none, st) ∧
    deleteLiveStream st idS = (false, st) := by
  refine ⟨hu, ?_, ha, ?_, ?_, hx, ?_, ?_, ht, ?_, he, ?_, ?_, hg, ?_, hs, ?_, ?_⟩
  · unfold updateUser; rw [hu]
  · unfold updateAthlete; rw [ha]
  · unfold deleteAthlete; rw [mapDelete_of_get_none _ _ ha]
  · unfold updateExercise; rw [hx]
  · unfold deleteExercise; rw [mapDelete_of_get_none _ _ hx]
  · unfold updateTrainingSession; rw [ht]
  · unfold updateEvent; rw [he]
  · unfold deleteEvent; rw [mapDelete_of_get_none _ _ he]
  · unfold deleteGalleryItem; rw [mapDelete_of_get_none _ _ hg]
  · unfold updateLiveStream; rw [hs]
  · unfold deleteLiveStream; rw [mapDelete_of_get_none _ _ hs]

/-- Witness for C3: on the empty store every lookup of the fresh id `"zzz"`
misses, so `getUser` returns the not-found signal there. -/
theorem claim3_witness : getUser emptyStore "zzz" = none :=
  (claim3_missing_id_semantics emptyStore "zzz" "zzz" "zzz" "zzz" "zzz" "zzz"
    "zzz" {} {} {} {} {} {} rfl rfl rfl rfl rfl rfl rfl).1

/-- C9: for every entity kind with a delete operation, deleting an id and then
looking it up yields the not-found signal, and a second delete of the same id
returns `false` (whether or not the first one succeeded), assuming the
JavaScript-`Map` well-formedness that keys are pairwise distinct. -/
theorem claim9_delete_then_get (st : MemStorage) (idA idX idE idG idS : String)
    (hA : (st.athletes.map (fun p => p.1)).Nodup)
    (hX : (st.exercises.map (fun p => p.1)).Nodup)
    (hE : (st.events.map (fun p => p.1)).Nodup)
    (hG : (st.galleryItems.map (fun p => p.1)).Nodup)
    (hS : (st.liveStreams.map (fun p => p.1)).Nodup) :
    getAthlete (deleteAthlete st idA).2 idA = none ∧
    (deleteAthlete (deleteAthlete st idA).2 idA).1 = false ∧
    getExercise (deleteExercise st idX).2 idX = none ∧
    (deleteExercise (deleteExercise st idX).2 idX).1 = false ∧
    getEvent (deleteEvent st idE).2 idE = none ∧
    (deleteEvent (deleteEvent st idE).2 idE).1 = false ∧
    getGalleryItem (deleteGalleryItem st idG).2 idG = none ∧
    (deleteGalleryItem (deleteGalleryItem st idG).2 idG).1 = false ∧
    getLiveStream (deleteLiveStream st idS).2 idS = none ∧
    (deleteLiveStream (deleteLiveStream st idS).2 idS).1 = false := by
  have hA1 : mapGet (mapDelete st.athletes idA).2 idA = none :=
    mapGet_mapDelete_self _ _ hA
  have hX1 : mapGet (mapDelete st.exercises idX).2 idX = none :=
    mapGet_mapDelete_self _ _ hX
  have hE1 : mapGet (mapDelete st.events idE).2 idE = none :=
    mapGet_mapDelete_self _ _ hE
  have hG1 : mapGet (mapDelete st.galleryItems idG).2 idG = none :=
    mapGet_mapDelete_self _ _ hG
  have hS1 : mapGet (mapDelete st.liveStreams idS).2 idS = none :=
    mapGet_mapDelete_self _ _ hS
  refine ⟨hA1, ?_, hX1, ?_, hE1, ?_, hG1, ?_, hS1, ?_⟩
  · show (mapDelete (mapDelete st.athletes idA).2 idA).1 = false
    rw [mapDelete_fst, hA1]; rfl
  · show (mapDelete (mapDelete st.exercises idX).2 idX).1 = false
    rw [mapDelete_fst, hX1]; rfl
  · show (mapDelete (mapDelete st.events idE).2 idE).1 = false
    rw [mapDelete_fst, hE1]; rfl
  · show (mapDelete (mapDelete st.galleryItems idG).2 idG).1 = false
    rw [mapDelete_fst, hG1]; rfl
  · show (mapDelete (mapDelete st.liveStreams idS).2 idS).1 = false
    rw [mapDelete_fst, hS1]; rfl

/-- Witness for C9: on the concrete one-record-per-map store, deleting athlete
`"a1"` (a successful delete) and then looking it up yields the not-found
signal. -/
theorem claim9_witness :
    getAthlete (deleteAthlete sampleStore "a1").2 "a1" = none ∧
    (deleteAthlete sampleStore "a1").1 = true :=
  ⟨(claim9_delete_then_get sampleStore "a1" "x1" "e1" "g1" "s1" (by decide)
      (by decide) (by decide) (by decide) (by decide)).1,
   by decide⟩

/-- C5: `getCurrentBestOfWeek` returns a stored record exactly when that
record's `weekStart` equals, to the millisecond, the start-of-week boundary
computed from the current time by `getStartOfWeek`: any returned record is
stored and matches the boundary exactly, and if nothing is returned then no
stored record matches the boundary, so a record whose `weekStart` differs by
any amount is never returned. -/
theorem claim5_current_best_exact_match (st : MemStorage) (now : Nat) :
    (∀ r, getCurrentBestOfWeek st now = some r →
      r ∈ mapValues st.bestOfWeeks ∧ r.weekStart = getStartOfWeek now) ∧
    (getCurrentBestOfWeek st now = none →
      ∀ r ∈ mapValues st.bestOfWeeks, r.weekStart ≠ getStartOfWeek now) := by
  constructor
  · intro r hr
    simp only [getCurrentBestOfWeek] at hr
    refine ⟨List.mem_of_find?_eq_some hr, ?_⟩
    have hp := List.find?_some hr
    simpa using hp
  · intro hnone r hmem
    simp only [getCurrentBestOfWeek] at hnone
    have := List.find?_eq_none.mp hnone r hmem
    simpa using this

/-- C6: for a fixed current time `now`, `getUpcomingEvents` returns exactly
the stored events whose `startDate` is strictly greater than `now`; an event
whose `startDate` equals `now` is excluded. -/
theorem claim6_upcoming_strict (st : MemStorage) (now : Nat) (e : Event) :
    (e ∈ getUpcomingEvents st now ↔ e ∈ mapValues st.events ∧ now < e.startDate) ∧
    (e.startDate = now → e ∉ getUpcomingEvents st now) := by
  constructor
  · simp [getUpcomingEvents, List.mem_filter]
  · intro h hmem
    simp [getUpcomingEvents, List.mem_filter, h] at hmem

/-- Concrete gallery insert whose `album` field is omitted (the C4 failing
input). -/
def galleryInsertNoAlbum : InsertGalleryItem :=
  { title := "Team photo", mediaType := "image",
    url := "http://example.com/p.jpg", uploadedBy := "u1" }

/-- C4 (divergence witness): creating a gallery item with `album` omitted
stores `album` as the null sentinel, not the schema-documented default
`"general"`, and the subsequent `getGalleryItemsByAlbum "general"` does not
include the created record — `createGalleryItem` uses `insertItem.album ||
null`, never the schema default. -/
theorem claim4_album_default_bug :
    (createGalleryItem emptyStore "g9" 0 galleryInsertNoAlbum).1.album = none ∧
    (createGalleryItem emptyStore "g9" 0 galleryInsertNoAlbum).1.album ≠ some "general" ∧
    (createGalleryItem emptyStore "g9" 0 galleryInsertNoAlbum).1 ∉
      getGalleryItemsByAlbum
        (createGalleryItem emptyStore "g9" 0 galleryInsertNoAlbum).2 "general" := by
  refine ⟨rfl, by decide, ?_⟩
  decide

/-- Concrete event insert whose `mandatory` field is omitted (the C7 failing
input). -/
def eventInsertNoMandatory : InsertEvent :=
  { title := "Practice", eventType := "training", startDate := 1000,
    createdBy := "u1" }

/-- C7 (divergence witness): creating an event with `mandatory` omitted stores
`mandatory` as the null sentinel, not the schema-documented default `false` —
`createEvent` uses `insertEvent.mandatory || null`, never the schema
default. -/
theorem claim7_mandatory_default_bug :
    (createEvent emptyStore "e9" eventInsertNoMandatory).1.mandatory = none ∧
    (createEvent emptyStore "e9" eventInsertNoMandatory).1.mandatory ≠ some false := by
  exact ⟨rfl, by decide⟩

/-- C10: if `createEvent` is called with `mandatory` explicitly `false`, the
stored record's `mandatory` field is the null sentinel, not `false`, and the
whole result (returned record and store state) is indistinguishable from the
call with `mandatory` omitted. -/
theorem claim10_explicit_false_coerced (st : MemStorage) (id : String)
    (ie : InsertEvent) (h : ie.mandatory = some false) :
    (createEvent st id ie).1.mandatory = none ∧
    (createEvent st id ie).1.mandatory ≠ some false ∧
    createEvent st id ie = createEvent st id { ie with mandatory := none } := by
  refine ⟨?_, ?_, ?_⟩ <;> simp [createEvent, h, orNullBool]

/-- Witness for C10 at a concrete input: the sample event insert with
`mandatory := some false`. -/
theorem claim10_witness :
    (createEvent emptyStore "e9"
      { eventInsertNoMandatory with mandatory := some false }).1.mandatory = none :=
  (claim10_explicit_false_coerced emptyStore "e9"
    { eventInsertNoMandatory with mandatory := some false } rfl).1

/-- C8 counterexample: on the concrete sample store, an update whose partial
record contains an `id` field rewrites the stored record's `id`: after
`updateUser "u1" {id: "u2"}` the record stored under key `"u1"` carries id
`"u2"`, so an update CAN change the id field of an existing record and the
stored id no longer equals its storage key. -/
theorem claim8_counterexample :
    ((updateUser sampleStore "u1" { id := some "u2" }).2.users.map
      (fun p => (p.1, p.2.id))) = [("u1", "u2")] := by
  decide

/-- C8 as amended: the id is assigned at creation and every create stores the
record under its own id; an update whose partial does NOT contain an `id`
field leaves the stored record's id (and its storage key) unchanged; only an
update whose partial explicitly contains an `id` value can overwrite the id
field. -/
theorem claim8_amended_id_stability (st : MemStorage) (id : String) (now : Nat)
    (iu : InsertUser) (ia : InsertAthlete) (ix : InsertExercise)
    (it : InsertTrainingSession) (ie : InsertEvent) (ig : InsertGalleryItem)
    (ib : InsertBestOfWeek) (il : InsertLiveStream)
    (idU idA idX idT idE idS : String)
    (u : User) (a : Athlete) (x : Exercise) (t : TrainingSession) (e : Event)
    (s : LiveStream)
    (pu : UserUpdates) (pa : AthleteUpdates) (px : ExerciseUpdates)
    (pt : TrainingSessionUpdates) (pe : EventUpdates) (ps : LiveStreamUpdates)
    (hu : mapGet st.users idU = some u) (hpu : pu.id = none)
    (ha : mapGet st.athletes idA = some a) (hpa : pa.id = none)
    (hx : mapGet st.exercises idX = some x) (hpx : px.id = none)
    (ht : mapGet st.trainingSessions idT = some t) (hpt : pt.id = none)
    (he : mapGet st.events idE = some e) (hpe : pe.id = none)
    (hs : mapGet st.liveStreams idS = some s) (hps : ps.id = none) :
    ((createUser st id now iu).1.id = id ∧
      mapGet (createUser st id now iu).2.users id = some (createUser st id now iu).1) ∧
    ((createAthlete st id ia).1.id = id ∧
      mapGet (createAthlete st id ia).2.athletes id = some (createAthlete st id ia).1) ∧
    ((createExercise st id ix).1.id = id ∧
      mapGet (createExercise st id ix).2.exercises id = some (createExercise st id ix).1) ∧
    ((createTrainingSession st id now it).1.id = id ∧
      mapGet (createTrainingSession st id now it).2.trainingSessions id
        = some (createTrainingSession st id now it).1) ∧
    ((createEvent st id ie).1.id = id ∧
      mapGet (createEvent st id ie).2.events id = some (createEvent st id ie).1) ∧
    ((createGalleryItem st id now ig).1.id = id ∧
      mapGet (createGalleryItem st id now ig).2.galleryItems id
        = some (createGalleryItem st id now ig).1) ∧
    ((setBestOfWeek st id ib).1.id = id ∧
      mapGet (setBestOfWeek st id ib).2.bestOfWeeks id = some (setBestOfWeek st id ib).1) ∧
    ((createLiveStream st id il).1.id = id ∧
      mapGet (createLiveStream st id il).2.liveStreams id
        = some (createLiveStream st id il).1) ∧
    (∃ m, (updateUser st idU pu).1 = some m ∧ m.id = u.id ∧
      mapGet (updateUser st idU pu).2.users idU = some m) ∧
    (∃ m, (updateAthlete st idA pa).1 = some m ∧ m.id = a.id ∧
      mapGet (updateAthlete st idA pa).2.athletes idA = some m) ∧
    (∃ m, (updateExercise st idX px).1 = some m ∧ m.id = x.id ∧
      mapGet (updateExercise st idX px).2.exercises idX = some m) ∧
    (∃ m, (updateTrainingSession st idT pt).1 = some m ∧ m.id = t.id ∧
      mapGet (updateTrainingSession st idT pt).2.trainingSessions idT = some m) ∧
    (∃ m, (updateEvent st idE pe).1 = some m ∧ m.id = e.id ∧
      mapGet (updateEvent st idE pe).2.events idE = some m) ∧
    (∃ m, (updateLiveStream st idS ps).1 = some m ∧ m.id = s.id ∧
      mapGet (updateLiveStream st idS ps).2.liveStreams idS = some m) := by
  refine ⟨⟨rfl, mapGet_mapSet_self _ _ _⟩, ⟨rfl, mapGet_mapSet_self _ _ _⟩,
    ⟨rfl, mapGet_mapSet_self _ _ _⟩, ⟨rfl, mapGet_mapSet_self _ _ _⟩,
    ⟨rfl, mapGet_mapSet_self _ _ _⟩, ⟨rfl, mapGet_mapSet_self _ _ _⟩,
    ⟨rfl, mapGet_mapSet_self _ _ _⟩, ⟨rfl, mapGet_mapSet_self _ _ _⟩,
    ?_, ?_, ?_, ?_, ?_, ?_⟩
  · unfold updateUser; rw [hu]
    exact ⟨_, rfl, by rw [hpu]; rfl, mapGet_mapSet_self _ _ _⟩
  · unfold updateAthlete; rw [ha]
    exact ⟨_, rfl, by rw [hpa]; rfl, mapGet_mapSet_self _ _ _⟩
  · unfold updateExercise; rw [hx]
    exact ⟨_, rfl, by rw [hpx]; rfl, mapGet_mapSet_self _ _ _⟩
  · unfold updateTrainingSession; rw [ht]
    exact ⟨_, rfl, by rw [hpt]; rfl, mapGet_mapSet_self _ _ _⟩
  · unfold updateEvent; rw [he]
    exact ⟨_, rfl, by rw [hpe]; rfl, mapGet_mapSet_self _ _ _⟩
  · unfold updateLiveStream; rw [hs]
    exact ⟨_, rfl, by rw [hps]; rfl, mapGet_mapSet_self _ _ _⟩

/-- Concrete sample insert inputs, used to instantiate the create conjuncts
of quantified claim theorems in witnesses. -/
def sampleInsertUser : InsertUser :=
  { username := "n", email := "n@x", password := "p", fullName := "N" }

/-- Concrete sample athlete insert. -/
def sampleInsertAthlete : InsertAthlete := { userId := "u1" }

/-- Concrete sample exercise insert. -/
def sampleInsertExercise : InsertExercise :=
  { name := "E", category := "strength", createdBy := "u1" }

/-- Concrete sample training session insert. -/
def sampleInsertSession : InsertTrainingSession :=
  { athleteId := "a1", exerciseId := "x1" }

/-- Concrete sample event insert. -/
def sampleInsertEvent : InsertEvent :=
  { title := "T", eventType := "training", startDate := 1, createdBy := "u1" }

/-- Concrete sample gallery insert. -/
def sampleInsertGallery : InsertGalleryItem :=
  { title := "G", mediaType := "image", url := "u", uploadedBy := "u1" }

/-- Concrete sample best-of-week insert. -/
def sampleInsertBest : InsertBestOfWeek :=
  { athleteId := "a1", weekStart := 0, setBy := "u1" }

/-- Concrete sample live stream insert. -/
def sampleInsertStream : InsertLiveStream :=
  { title := "L", youtubeUrl := "y", createdBy := "u1" }

/-- Concrete athlete partial update that changes only the height. -/
def heightOnlyUpdate : AthleteUpdates := { height := some (some "1.90m") }

/-- Witness for C8 as amended: on the concrete sample store, an update of
athlete `"a1"` with an id-free partial keeps the stored id at `"a1"`. -/
theorem claim8_amended_witness :
    ∃ m, (updateAthlete sampleStore "a1" heightOnlyUpdate).1 = some m ∧
      m.id = sampleAthlete.id := by
  obtain ⟨-, -, -, -, -, -, -, -, -, hA, -⟩ :=
    claim8_amended_id_stability sampleStore "z1" 0 sampleInsertUser
      sampleInsertAthlete sampleInsertExercise sampleInsertSession
      sampleInsertEvent sampleInsertGallery sampleInsertBest sampleInsertStream
      "u1" "a1" "x1" "t1" "e1" "s1"
      sampleUser sampleAthlete sampleExercise sampleSession sampleEvent
      sampleStream
      {} heightOnlyUpdate {} {} {} {}
      (by decide) rfl (by decide) rfl (by decide) rfl (by decide) rfl
      (by decide) rfl (by decide) rfl
  obtain ⟨m, h1, h2, -⟩ := hA
  exact ⟨m, h1, h2⟩

/-- C2: for every entity kind with an update operation and every existing id,
`update(id, partial)` returns some merged record which is exactly what is then
stored under the id; in the merged record, every field present in the partial
carries exactly the supplied value and every field absent from the partial
keeps its previous value. -/
theorem claim2_update_shallow_merge (st : MemStorage)
    (idU idA idX idT idE idS : String)
    (u : User) (a : Athlete) (x : Exercise) (t : TrainingSession) (e : Event)
    (s : LiveStream)
    (pu : UserUpdates) (pa : AthleteUpdates) (px : ExerciseUpdates)
    (pt : TrainingSessionUpdates) (pe : EventUpdates) (ps : LiveStreamUpdates)
    (hu : mapGet st.users idU = some u)
    (ha : mapGet st.athletes idA = some a)
    (hx : mapGet st.exercises idX = some x)
    (ht : mapGet st.trainingSessions idT = some t)
    (he : mapGet st.events idE = some e)
    (hs : mapGet st.liveStreams idS = some s) :
    (∃ m, (updateUser st idU pu).1 = some m ∧
      mapGet (updateUser st idU pu).2.users idU = some m ∧
      (pu.id = none → m.id = u.id) ∧
      (∀ v, pu.id = some v → m.id = v) ∧
      (pu.username = none → m.username = u.username) ∧
      (∀ v, pu.username = some v → m.username = v) ∧
      (pu.email = none → m.email = u.email) ∧
      (∀ v, pu.email = some v → m.email = v) ∧
      (pu.password = none → m.password = u.password) ∧
      (∀ v, pu.password = some v → m.password = v) ∧
      (pu.role = none → m.role = u.role) ∧
      (∀ v, pu.role = some v → m.role = v) ∧
      (pu.fullName = none → m.fullName = u.fullName) ∧
      (∀ v, pu.fullName = some v → m.fullName = v) ∧
      (pu.profilePicture = none → m.profilePicture = u.profilePicture) ∧
      (∀ v, pu.profilePicture = some v → m.profilePicture = v) ∧
      (pu.position = none → m.position = u.position) ∧
      (∀ v, pu.position = some v → m.position = v) ∧
      (pu.createdAt = none → m.createdAt = u.createdAt) ∧
      (∀ v, pu.createdAt = some v → m.createdAt = v)) ∧
    (∃ m, (updateAthlete st idA pa).1 = some m ∧
      mapGet (updateAthlete st idA pa).2.athletes idA = some m ∧
      (pa.id = none → m.id = a.id) ∧
      (∀ v, pa.id = some v → m.id = v) ∧
      (pa.userId = none → m.userId = a.userId) ∧
      (∀ v, pa.userId = some v → m.userId = v) ∧
      (pa.height = none → m.height = a.height) ∧
      (∀ v, pa.height = some v → m.height = v) ∧
      (pa.weight = none → m.weight = a.weight) ∧
      (∀ v, pa.weight = some v → m.weight = v) ∧
      (pa.sleepHours = none → m.sleepHours = a.sleepHours) ∧
      (∀ v, pa.sleepHours = some v → m.sleepHours = v) ∧
      (pa.overallPerformance = none → m.overallPerformance = a.overallPerformance) ∧
      (∀ v, pa.overallPerformance = some v → m.overallPerformance = v) ∧
      (pa.lastTraining = none → m.lastTraining = a.lastTraining) ∧
      (∀ v, pa.lastTraining = some v → m.lastTraining = v)) ∧
    (∃ m, (updateExercise st idX px).1 = some m ∧
      mapGet (updateExercise st idX px).2.exercises idX = some m ∧
      (px.id = none → m.id = x.id) ∧
      (∀ v, px.id = some v → m.id = v) ∧
      (px.name = none → m.name = x.name) ∧
      (∀ v, px.name = some v → m.name = v) ∧
      (px.description = none → m.description = x.description) ∧
      (∀ v, px.description = some v → m.description = v) ∧
      (px.category = none → m.category = x.category) ∧
      (∀ v, px.category = some v → m.category = v) ∧
      (px.videoUrl = none → m.videoUrl = x.videoUrl) ∧
      (∀ v, px.videoUrl = some v → m.videoUrl = v) ∧
      (px.metrics = none → m.metrics = x.metrics) ∧
      (∀ v, px.metrics = some v → m.metrics = v) ∧
      (px.createdBy = none → m.createdBy = x.createdBy) ∧
      (∀ v, px.createdBy = some v → m.createdBy = v)) ∧
    (∃ m, (updateTrainingSession st idT pt).1 = some m ∧
      mapGet (updateTrainingSession st idT pt).2.trainingSessions idT = some m ∧
      (pt.id = none → m.id = t.id) ∧
      (∀ v, pt.id = some v → m.id = v) ∧
      (pt.athleteId = none → m.athleteId = t.athleteId) ∧
      (∀ v, pt.athleteId = some v → m.athleteId = v) ∧
      (pt.exerciseId = none → m.exerciseId = t.exerciseId) ∧
      (∀ v, pt.exerciseId = some v → m.exerciseId = v) ∧
      (pt.results = none → m.results = t.results) ∧
      (∀ v, pt.results = some v → m.results = v) ∧
      (pt.completedAt = none → m.completedAt = t.completedAt) ∧
      (∀ v, pt.completedAt = some v → m.completedAt = v)) ∧
    (∃ m, (updateEvent st idE pe).1 = some m ∧
      mapGet (updateEvent st idE pe).2.events idE = some m ∧
      (pe.id = none → m.id = e.id) ∧
      (∀ v, pe.id = some v → m.id = v) ∧
      (pe.title = none → m.title = e.title) ∧
      (∀ v, pe.title = some v → m.title = v) ∧
      (pe.description = none → m.description = e.description) ∧
      (∀ v, pe.description = some v → m.description = v) ∧
      (pe.eventType = none → m.eventType = e.eventType) ∧
      (∀ v, pe.eventType = some v → m.eventType = v) ∧
      (pe.startDate = none → m.startDate = e.startDate) ∧
      (∀ v, pe.startDate = some v → m.startDate = v) ∧
      (pe.endDate = none → m.endDate = e.endDate) ∧
      (∀ v, pe.endDate = some v → m.endDate = v) ∧
      (pe.mandatory = none → m.mandatory = e.mandatory) ∧
      (∀ v, pe.mandatory = some v → m.mandatory = v) ∧
      (pe.createdBy = none → m.createdBy = e.createdBy) ∧
      (∀ v, pe.createdBy = some v → m.createdBy = v)) ∧
    (∃ m, (updateLiveStream st idS ps).1 = some m ∧
      mapGet (updateLiveStream st idS ps).2.liveStreams idS = some m ∧
      (ps.id = none → m.id = s.id) ∧
      (∀ v, ps.id = some v → m.id = v) ∧
      (ps.title = none → m.title = s.title) ∧
      (∀ v, ps.title = some v → m.title = v) ∧
      (ps.description = none → m.description = s.description) ∧
      (∀ v, ps.description = some v → m.description = v) ∧
      (ps.youtubeUrl = none → m.youtubeUrl = s.youtubeUrl) ∧
      (∀ v, ps.youtubeUrl = some v → m.youtubeUrl = v) ∧
      (ps.isActive = none → m.isActive = s.isActive) ∧
      (∀ v, ps.isActive = some v → m.isActive = v) ∧
      (ps.scheduledFor = none → m.scheduledFor = s.scheduledFor) ∧
      (∀ v, ps.scheduledFor = some v → m.scheduledFor = v) ∧
      (ps.category = none → m.category = s.category) ∧
      (∀ v, ps.category = some v → m.category = v) ∧
      (ps.createdBy = none → m.createdBy = s.createdBy) ∧
      (∀ v, ps.createdBy = some v → m.createdBy = v)) := by
  refine ⟨?_, ?_, ?_, ?_, ?_, ?_⟩
  · unfold updateUser; rw [hu]
    refine ⟨_, rfl, mapGet_mapSet_self _ _ _, ?_⟩
    repeat' apply And.intro
    all_goals intros
    all_goals rename_i h
    all_goals rw [h]
    all_goals rfl
  · unfold updateAthlete; rw [ha]
    refine ⟨_, rfl, mapGet_mapSet_self _ _ _, ?_⟩
    repeat' apply And.intro
    all_goals intros
    all_goals rename_i h
    all_goals rw [h]
    all_goals rfl
  · unfold updateExercise; rw [hx]
    refine ⟨_, rfl, mapGet_mapSet_self _ _ _, ?_⟩
    repeat' apply And.intro
    all_goals intros
    all_goals rename_i h
    all_goals rw [h]
    all_goals rfl
  · unfold updateTrainingSession; rw [ht]
    refine ⟨_, rfl, mapGet_mapSet_self _ _ _, ?_⟩
    repeat' apply And.intro
    all_goals intros
    all_goals rename_i h
    all_goals rw [h]
    all_goals rfl
  · unfold updateEvent; rw [he]
    refine ⟨_, rfl, mapGet_mapSet_self _ _ _, ?_⟩
    repeat' apply And.intro
    all_goals intros
    all_goals rename_i h
    all_goals rw [h]
    all_goals rfl
  · unfold updateLiveStream; rw [hs]
    refine ⟨_, rfl, mapGet_mapSet_self _ _ _, ?_⟩
    repeat' apply And.intro
    all_goals intros
    all_goals rename_i h
    all_goals rw [h]
    all_goals rfl

/-- Witness for C2 at a concrete input: updating athlete `"a1"` of the sample
store with a partial containing only `height` returns some merged record that
is also the newly stored record. -/
theorem claim2_witness :
    ∃ m, (updateAthlete sampleStore "a1" heightOnlyUpdate).1 = some m ∧
      mapGet (updateAthlete sampleStore "a1" heightOnlyUpdate).2.athletes "a1"
        = some m := by
  obtain ⟨-, hA, -⟩ :=
    claim2_update_shallow_merge sampleStore "u1" "a1" "x1" "t1" "e1" "s1"
      sampleUser sampleAthlete sampleExercise sampleSession sampleEvent
      sampleStream
      {} heightOnlyUpdate {} {} {} {}
      (by decide) (by decide) (by decide) (by decide) (by decide) (by decide)
  obtain ⟨m, h1, h2, -⟩ := hA
  exact ⟨m, h1, h2⟩
